import Mathlib

/-!
Shallow embedding of the HealthBridge privacy/consent engine
(`src/backend/services/privacy_service.py`, `src/backend/models/data_consent.py`,
`src/backend/models/data_policy.py`, `src/backend/models/audit_log.py`).

Timestamps (`datetime`) are modelled as an `Instant` carrying the epoch value
used for ordering comparisons together with the observations the code makes
of a `datetime` (`weekday()`, `strftime "%H:%M"`).  Where the service only
compares timestamps, a bare `Int` epoch is used.  SQLAlchemy queries over a
table are modelled as filters over the table's row list in row order
(`.first()` = head of the filtered list, `.all()` = the filtered list).
Python truthiness of an `Optional[int]` (`if clinic_id:`) is `false` for both
`None` and `0`; truthiness of a dict is nonemptiness, modelled by wrapping the
sub-object in `Option` (`none` = key absent or value empty).
-/

namespace HealthBridge

/-- `DataCategory` enum from `src/backend/models/data_consent.py`. -/
inductive DataCategory where
  | MEDICAL_HISTORY
  | TREATMENTS
  | IMAGING
  | PRESCRIPTIONS
  | PATHOLOGY
  | VITALS
deriving DecidableEq, Repr

/-- The `.value` string of a `DataCategory` member. -/
def DataCategory.value : DataCategory → String
  | .MEDICAL_HISTORY => "medical_history"
  | .TREATMENTS => "treatments"
  | .IMAGING => "imaging"
  | .PRESCRIPTIONS => "prescriptions"
  | .PATHOLOGY => "pathology"
  | .VITALS => "vitals"

/-- `AccessLevel` enum from `src/backend/models/data_consent.py`. -/
inductive AccessLevel where
  | FULL
  | LIMITED
  | NONE
deriving DecidableEq, Repr

/-- `PolicyType` enum from `src/backend/models/data_policy.py`. -/
inductive PolicyType where
  | RETENTION
  | ACCESS
  | SHARING
  | ENCRYPTION
  | ANONYMIZATION
deriving DecidableEq, Repr

/-- `PolicyScope` enum from `src/backend/models/data_policy.py`. -/
inductive PolicyScope where
  | GLOBAL
  | CLINIC
  | PATIENT
  | DATA_CATEGORY
deriving DecidableEq, Repr

/-- `ActionType` enum from `src/backend/models/audit_log.py`. -/
inductive ActionType where
  | VIEW
  | CREATE
  | UPDATE
  | DELETE
  | GRANT
  | REVOKE
  | EXPORT
  | SYNC
deriving DecidableEq, Repr

/-- `ResourceType` enum from `src/backend/models/audit_log.py`. -/
inductive ResourceType where
  | HEALTH_RECORD
  | CONSENT
  | INTEGRATION
  | USER_PROFILE
  | DATA_EXPORT
deriving DecidableEq, Repr

/-- A `datetime` value as observed by the engine: `epoch` orders it against
other timestamps (`<`, `>` on `datetime`), `weekday` is `.weekday()`
(0 = Monday … 6 = Sunday), `hour`/`minute` feed `strftime "%H:%M"`. -/
structure Instant where
  epoch : Int
  weekday : Nat
  hour : Nat
  minute : Nat
deriving DecidableEq, Repr

/-- Row of the `data_consents` table (`src/backend/models/data_consent.py`).
`data_categories` is the JSON dict `{category.value: sharing_preference}`,
modelled as an association list of its key/value pairs. -/
structure DataConsent where
  id : Int
  patient_id : Int
  clinic_id : Int
  access_level : AccessLevel
  valid_from : Int
  valid_until : Option Int
  purposes : List String
  data_categories : List (String × String)
  created_by : Int
  last_modified_by : Int
deriving DecidableEq, Repr

/-- `rules["access_rules"]["time_restrictions"]` sub-dict: `days` (weekday
numbers), `start_time` / `end_time` ("HH:MM" strings).  `none` fields model
absent keys, replaced by `.get` defaults at the use site. -/
structure TimeRestrictions where
  days : Option (List Nat)
  start_time : Option String
  end_time : Option String
deriving DecidableEq, Repr

/-- `rules["access_rules"]["category_rules"][cat]` entry: `allowed_actions`
list (absent key defaults to `[]`). -/
structure CategoryRule where
  allowed_actions : List String
deriving DecidableEq, Repr

instance : Inhabited CategoryRule := ⟨⟨[]⟩⟩

/-- `rules["access_rules"]` sub-dict of a policy's JSON `rules` payload.
`time_restrictions` is `Option` because the code tests the dict's
truthiness (`if time_restrictions:`); `category_rules` is an association
list keyed by category value, `[]` = absent-or-empty (falsy). -/
structure AccessRules where
  allowed_roles : List String
  time_restrictions : Option TimeRestrictions
  category_rules : List (String × CategoryRule)
deriving DecidableEq, Repr

instance : Inhabited AccessRules := ⟨⟨[], none, []⟩⟩

/-- `rules["sharing_rules"]` sub-dict. -/
structure SharingRules where
  allowed_recipients : List Int
  allowed_purposes : List String
deriving DecidableEq, Repr

instance : Inhabited SharingRules := ⟨⟨[], []⟩⟩

/-- `rules["retention_rules"]["retention_period"]` sub-dict; `days = none`
models the `float("inf")` default of an absent `"days"` key. -/
structure RetentionPeriod where
  days : Option Int
deriving DecidableEq, Repr

/-- `rules["retention_rules"]` sub-dict; `retention_period` is `Option`
because the code tests the dict's truthiness. -/
structure RetentionRules where
  retention_period : Option RetentionPeriod
deriving DecidableEq, Repr

instance : Inhabited RetentionRules := ⟨⟨none⟩⟩

/-- A policy's JSON `rules` column; each `none` models an absent key, so the
`.get(key, {})` at each use site yields the all-defaults sub-object. -/
structure Rules where
  access_rules : Option AccessRules
  sharing_rules : Option SharingRules
  retention_rules : Option RetentionRules
deriving DecidableEq, Repr

/-- Row of the `data_policies` table (`src/backend/models/data_policy.py`). -/
structure DataPolicy where
  id : Int
  name : String
  policy_type : PolicyType
  scope : PolicyScope
  clinic_id : Option Int
  patient_id : Option Int
  data_category : Option DataCategory
  rules : Rules
  is_active : Bool
  priority : Int
  expires_at : Option Int
deriving DecidableEq, Repr

/-- The `context` dict passed to `check_access_permission` /
`evaluate_access`: the keys the code reads, `none` = key absent
(`context.get(...)` returns `None`). -/
structure Context where
  user_role : Option String
  recipient_id : Option Int
  purpose : Option String
  data_created_at : Option Int
  ip_address : Option String
deriving DecidableEq, Repr

/-- The `details` JSON stored on an audit row: either the
`{"data_category": …, "action": …, **context}` dict built by
`_log_access_attempt`, or the `{"reason": …}` / `{}` dict built by
`_log_consent_change`. -/
inductive AuditDetails where
  | accessAttempt (data_category : String) (action : String) (ctx : Context)
  | consentChange (reason : Option String)
deriving DecidableEq, Repr

/-- Row of the `audit_logs` table (`src/backend/models/audit_log.py`),
as created by `AuditLog.log_action`. -/
structure AuditLog where
  timestamp : Int
  action : ActionType
  resource_type : ResourceType
  resource_id : Int
  user_id : Int
  clinic_id : Option Int
  ip_address : String
  details : AuditDetails
  user_agent : Option String
  consent_id : Option Int
  success : Bool
  error_message : Option String
deriving DecidableEq, Repr

/-- The database visible to `PrivacyService`: the three tables the claims
touch, each as its list of rows in row order. -/
structure DB where
  consents : List DataConsent
  policies : List DataPolicy
  audit_logs : List AuditLog
deriving DecidableEq, Repr

/-- The `valid_until`-unexpired filter used by the consent queries:
`valid_until IS NULL OR valid_until > utcnow()`. -/
def consentUnexpired (now : Int) (c : DataConsent) : Bool :=
  match c.valid_until with
  | none => true
  | some u => now < u

/-- `PrivacyService._get_active_consent`: filter by patient and
non-expiry, add the clinic filter only when `clinic_id` is truthy
(Python: `if clinic_id:` — false for both `None` and `0`), take `.first()`. -/
def getActiveConsent (db : DB) (now : Int) (patient_id : Int)
    (clinic_id : Option Int) : Option DataConsent :=
  let q := db.consents.filter
    (fun c => c.patient_id == patient_id && consentUnexpired now c)
  match clinic_id with
  | none => q.head?
  | some k =>
      if k == 0 then q.head?
      else (q.filter (fun c => c.clinic_id == k)).head?

/-- Lexicographic (code-point) comparison on char lists, the order Python
uses for `str` comparison; Lean's builtin `String.ltb` is the same order but
does not reduce in the kernel, so it is spelled out here. -/
def charListLt : List Char → List Char → Bool
  | [], [] => false
  | [], _ :: _ => true
  | _ :: _, [] => false
  | a :: as, b :: bs =>
      if a < b then true else if b < a then false else charListLt as bs

/-- Python `a <= b` on strings: lexicographic by code point. -/
def pyStrLe (a b : String) : Bool :=
  charListLt a.data b.data || a.data == b.data

/-- Zero-padded two-digit rendering of an hour/minute field, as produced by
`strftime` for `%H` / `%M`. -/
def pad2 (n : Nat) : String :=
  if n < 10 then "0" ++ toString n else toString n

/-- `current_time.strftime("%H:%M")`. -/
def Instant.hhmm (t : Instant) : String :=
  pad2 t.hour ++ ":" ++ pad2 t.minute

/-- `DataPolicy._is_within_time_restrictions` (static), for a truthy
(nonempty) `restrictions` dict: weekday must be in `days`
(default `list(range(7))`), and the "HH:MM" rendering of the current time
must lie between `start_time` (default "00:00") and `end_time`
(default "23:59"), inclusive, under string comparison. -/
def isWithinTimeRestrictions (current_time : Instant)
    (restrictions : TimeRestrictions) : Bool :=
  let allowed_days := restrictions.days.getD [0, 1, 2, 3, 4, 5, 6]
  if !(allowed_days.contains current_time.weekday) then false
  else
    let start_time := restrictions.start_time.getD "00:00"
    let end_time := restrictions.end_time.getD "23:59"
    let current_time_str := current_time.hhmm
    pyStrLe start_time current_time_str && pyStrLe current_time_str end_time

/-- `DataPolicy._check_category_rules` (static):
`rules.get(category.value, {})`, then `allowed_actions` defaults to `[]`;
`not allowed_actions or action in allowed_actions`. -/
def checkCategoryRules (data_category : DataCategory) (action : String)
    (rules : List (String × CategoryRule)) : Bool :=
  let category_rules := (rules.lookup data_category.value).getD default
  let allowed_actions := category_rules.allowed_actions
  allowed_actions == [] || allowed_actions.contains action

/-- `DataPolicy._evaluate_access_policy`: role clause, then time clause
(only when the `time_restrictions` dict is truthy), then category clause
(only when the `category_rules` dict is truthy); each failing clause
returns `False`, otherwise `True`. -/
def evaluateAccessPolicy (p : DataPolicy) (now : Instant)
    (data_category : DataCategory) (action : String) (context : Context) :
    Bool :=
  let rules := p.rules.access_rules.getD default
  let allowed_roles := rules.allowed_roles
  if !allowed_roles.isEmpty &&
      !(match context.user_role with
        | some r => allowed_roles.contains r
        | none => false) then
    false
  else if (match rules.time_restrictions with
           | some tr => !isWithinTimeRestrictions now tr
           | none => false) then
    false
  else if !rules.category_rules.isEmpty &&
      !checkCategoryRules data_category action rules.category_rules then
    false
  else
    true

/-- `DataPolicy._evaluate_sharing_policy`: recipient clause then purpose
clause, each only when the corresponding allowed-list is truthy. -/
def evaluateSharingPolicy (p : DataPolicy) (context : Context) : Bool :=
  let rules := p.rules.sharing_rules.getD default
  let allowed_recipients := rules.allowed_recipients
  if !allowed_recipients.isEmpty &&
      !(match context.recipient_id with
        | some r => allowed_recipients.contains r
        | none => false) then
    false
  else
    let allowed_purposes := rules.allowed_purposes
    if !allowed_purposes.isEmpty &&
        !(match context.purpose with
          | some pu => allowed_purposes.contains pu
          | none => false) then
      false
    else
      true

/-- `DataPolicy._evaluate_retention_policy`:
`(utcnow() - data_created_at).days` (floor of the difference in days, as
`timedelta.days`) compared against `retention_period["days"]`
(`float("inf")` when absent, so `none` never denies). -/
def evaluateRetentionPolicy (p : DataPolicy) (now : Instant)
    (context : Context) : Bool :=
  let rules := p.rules.retention_rules.getD default
  match rules.retention_period with
  | none => true
  | some retention_period =>
      match context.data_created_at with
      | none => true
      | some data_created_at =>
          let data_age := Int.fdiv (now.epoch - data_created_at) 86400
          match retention_period.days with
          | none => true
          | some d => if data_age > d then false else true

/-- `DataPolicy.evaluate_access`: deny when the policy is inactive or past
its `expires_at` (a `datetime` is always truthy, so the Python
`self.expires_at and utcnow() > self.expires_at` is just the `some` case);
then dispatch on `policy_type`, with `True` as the default for the
remaining types (the code's `return True  # Default allow`). -/
def evaluateAccess (p : DataPolicy) (now : Instant) (user_id : Int)
    (data_category : DataCategory) (action : String) (context : Context) :
    Bool :=
  let _ := user_id
  if !p.is_active ||
      (match p.expires_at with
       | some e => now.epoch > e
       | none => false) then
    false
  else if p.policy_type == PolicyType.ACCESS then
    evaluateAccessPolicy p now data_category action context
  else if p.policy_type == PolicyType.SHARING then
    evaluateSharingPolicy p context
  else if p.policy_type == PolicyType.RETENTION then
    evaluateRetentionPolicy p now context
  else
    true

/-- Insert a policy into a list already sorted by priority descending,
before every entry of smaller-or-equal priority: the inserted policy
preceded the list's entries in the input, so placing it before
equal-priority entries keeps their original relative order. -/
def insertByPriority (p : DataPolicy) : List DataPolicy → List DataPolicy
  | [] => [p]
  | q :: qs =>
      if p.priority ≥ q.priority then p :: q :: qs
      else q :: insertByPriority p qs

/-- `sorted(policies, key=lambda p: p.priority, reverse=True)`: Python's
sort is stable, so this is the stable descending sort by `priority`,
realised as a stable insertion sort. -/
def sortByPriorityDesc : List DataPolicy → List DataPolicy
  | [] => []
  | p :: ps => insertByPriority p (sortByPriorityDesc ps)

/-- `PrivacyService._get_applicable_policies`: concatenate the global,
patient-scoped, clinic-scoped (only when `clinic_id` is truthy) and
category-scoped active-policy queries, then stable-sort by priority
descending.  Note the queries filter on `is_active` only, not on
`expires_at`. -/
def getApplicablePolicies (db : DB) (patient_id : Int)
    (clinic_id : Option Int) (data_category : DataCategory) :
    List DataPolicy :=
  let global_policies := db.policies.filter
    (fun p => p.scope == PolicyScope.GLOBAL && p.is_active)
  let patient_policies := db.policies.filter
    (fun p => p.scope == PolicyScope.PATIENT &&
      p.patient_id == some patient_id && p.is_active)
  let clinic_policies :=
    match clinic_id with
    | none => []
    | some k =>
        if k == 0 then []
        else db.policies.filter
          (fun p => p.scope == PolicyScope.CLINIC &&
            p.clinic_id == some k && p.is_active)
  let category_policies := db.policies.filter
    (fun p => p.scope == PolicyScope.DATA_CATEGORY &&
      p.data_category == some data_category && p.is_active)
  sortByPriorityDesc
    (global_policies ++ patient_policies ++ clinic_policies ++
      category_policies)

/-- `AuditLog.log_action`: build the row (`timestamp = utcnow()`) and add
it to the session (append to the table). -/
def logAction (db : DB) (now : Int) (action : ActionType)
    (resource_type : ResourceType) (resource_id : Int) (user_id : Int)
    (ip_address : String) (details : AuditDetails) (clinic_id : Option Int)
    (user_agent : Option String) (consent_id : Option Int) (success : Bool)
    (error_message : Option String) : DB :=
  let log : AuditLog :=
    { timestamp := now, action, resource_type, resource_id, user_id,
      clinic_id, ip_address, details, user_agent, consent_id,
      success, error_message }
  { db with audit_logs := db.audit_logs ++ [log] }

/-- `PrivacyService._log_access_attempt`: `VIEW` for the "view" action,
`UPDATE` otherwise; `ip_address` from the context (default "unknown");
details carry the data category, action and context. -/
def logAccessAttempt (db : DB) (now : Int) (user_id patient_id : Int)
    (data_category : DataCategory) (action : String)
    (clinic_id : Option Int) (success : Bool) (context : Context) : DB :=
  logAction db now
    (if action == "view" then ActionType.VIEW else ActionType.UPDATE)
    ResourceType.HEALTH_RECORD patient_id user_id
    (context.ip_address.getD "unknown")
    (AuditDetails.accessAttempt data_category.value action context)
    clinic_id none none success none

/-- `PrivacyService._log_consent_change`: resource type `CONSENT`,
`ip_address = "system"`, details `{"reason": reason} if reason else {}`
(both modelled by `AuditDetails.consentChange`). -/
def logConsentChange (db : DB) (now : Int) (consent_id : Int)
    (action : ActionType) (user_id : Int) (clinic_id : Int)
    (details : Option String) : DB :=
  logAction db now action ResourceType.CONSENT consent_id user_id "system"
    (AuditDetails.consentChange details) (some clinic_id) none none true none

/-- The `for policy in policies:` loop of `check_access_permission`:
return the denial message of the first policy whose `evaluate_access` is
false, `none` when every policy passes. -/
def policyLoop (now : Instant) (user_id : Int)
    (data_category : DataCategory) (action : String) (context : Context) :
    List DataPolicy → Option String
  | [] => none
  | p :: ps =>
      if evaluateAccess p now user_id data_category action context then
        policyLoop now user_id data_category action context ps
      else
        some ("Policy " ++ p.name ++ " denies access")

/-- `PrivacyService.check_access_permission`.  Returns the updated
database (the early-return denial branches leave it unchanged; only the
granted path reaches `_log_access_attempt`) together with the
`(has_permission, reason)` pair. -/
def checkAccessPermission (db : DB) (now : Instant) (user_id patient_id : Int)
    (data_category : DataCategory) (action : String)
    (clinic_id : Option Int) (context : Context) :
    DB × Bool × String :=
  match getActiveConsent db now.epoch patient_id clinic_id with
  | none => (db, false, "No active consent found")
  | some consent =>
      if consent.access_level == AccessLevel.NONE then
        (db, false, "Access explicitly denied")
      else if !((consent.data_categories.map Prod.fst).contains
          data_category.value) then
        (db, false, "No consent for " ++ data_category.value ++ " data")
      else
        let policies := getApplicablePolicies db patient_id clinic_id
          data_category
        match policyLoop now user_id data_category action context policies with
        | some reason => (db, false, reason)
        | none =>
            (logAccessAttempt db now.epoch user_id patient_id data_category
              action clinic_id true context,
             true, "Access granted")

/-- `granted_by or patient_id` — Python `or` falls through on falsy
values, so both `None` and `0` yield `patient_id`. -/
def grantedByOr (granted_by : Option Int) (patient_id : Int) : Int :=
  match granted_by with
  | none => patient_id
  | some g => if g == 0 then patient_id else g

/-- Modelled from the spec: `PrivacyService._revoke_existing_consents` is
called by `grant_consent` (line 100) but its definition is not present
under `src/`.  Spec §4.1: grant_consent "locates any currently-active
consent for the (patient, organization) pair and supersedes it (sets
valid-until = now, without deleting it)"; active consent is the notion
used by `_get_active_consent` (unexpired `valid_until`). -/
def supersedeIfActive (now patient_id clinic_id : Int) (c : DataConsent) :
    DataConsent :=
  if c.patient_id == patient_id && c.clinic_id == clinic_id &&
      consentUnexpired now c then
    { c with valid_until := some now }
  else c

/-- Modelled from the spec (continued): supersede every currently-active
consent row of the pair, deleting none. -/
def revokeExistingConsents (db : DB) (now : Int) (patient_id clinic_id : Int) :
    DB :=
  { db with
      consents := db.consents.map (supersedeIfActive now patient_id clinic_id) }

/-- Fresh autoincrement id for a new `data_consents` row. -/
def freshConsentId (db : DB) : Int :=
  1 + (db.consents.map (fun c => c.id)).foldr max 0

/-- `PrivacyService.grant_consent`: supersede existing consents for the
pair, insert the new row (`data_categories = {cat.value: "all" for cat}`),
then log a `GRANT` consent change.  Performs no validation of
`valid_until` or `data_categories`.  Returns the updated database and the
created consent. -/
def grantConsent (db : DB) (now : Int) (patient_id clinic_id : Int)
    (access_level : AccessLevel) (data_categories : List DataCategory)
    (purposes : List String) (valid_until : Option Int)
    (granted_by : Option Int) : DB × DataConsent :=
  let db1 := revokeExistingConsents db now patient_id clinic_id
  let consent : DataConsent :=
    { id := freshConsentId db1, patient_id, clinic_id, access_level,
      valid_from := now,
      valid_until,
      purposes,
      data_categories := data_categories.map (fun cat => (cat.value, "all")),
      created_by := grantedByOr granted_by patient_id,
      last_modified_by := grantedByOr granted_by patient_id }
  let db2 := { db1 with consents := db1.consents ++ [consent] }
  let db3 := logConsentChange db2 now consent.id ActionType.GRANT
    (grantedByOr granted_by patient_id) clinic_id none
  (db3, consent)

/-- `PrivacyService.revoke_consent`: `False` when the id is unknown;
otherwise set `access_level = NONE`, `valid_until = utcnow()`,
`last_modified_by`, log a `REVOKE` consent change, and return `True`. -/
def revokeConsent (db : DB) (now : Int) (consent_id : Int)
    (revoked_by : Int) (reason : Option String) : DB × Bool :=
  match db.consents.find? (fun c => c.id == consent_id) with
  | none => (db, false)
  | some consent =>
      let db1 :=
        { db with
            consents := db.consents.map (fun c =>
              if c.id == consent_id then
                { c with
                    access_level := AccessLevel.NONE,
                    valid_until := some now,
                    last_modified_by := revoked_by }
              else c) }
      let db2 := logConsentChange db1 now consent_id ActionType.REVOKE
        revoked_by consent.clinic_id reason
      (db2, true)

/-! ### Sample rows used to instantiate the theorems -/

/-- An empty `context` dict (every key absent). -/
def sampleCtx : Context := ⟨none, none, none, none, none⟩

/-- A Tuesday 10:00 instant (`weekday() = 1`), epoch 200. -/
def tueInstant : Instant := ⟨200, 1, 10, 0⟩

/-- A Saturday 10:00 instant (`weekday() = 5`), epoch 200. -/
def satInstant : Instant := ⟨200, 5, 10, 0⟩

/-- A FULL, indefinite consent of patient 42 to clinic 7 covering
`medical_history`. -/
def fullConsent : DataConsent :=
  ⟨1, 42, 7, AccessLevel.FULL, 0, none, [], [("medical_history", "all")],
    42, 42⟩

/-- A database with no rows at all. -/
def emptyDB : DB := ⟨[], [], []⟩

/-- A database holding only `fullConsent`. -/
def consentOnlyDB : DB := ⟨[fullConsent], [], []⟩

/-- A `rules` JSON payload with none of the recognised keys. -/
def emptyRules : Rules := ⟨none, none, none⟩

/-- A consent row identical in shape to `fullConsent` but with access
level `NONE`. -/
def noneConsent : DataConsent :=
  ⟨1, 42, 7, AccessLevel.NONE, 0, none, [], [("medical_history", "all")],
    42, 42⟩

/-- Database whose only consent row has access level `NONE`. -/
def noneLevelDB : DB := ⟨[noneConsent], [], []⟩

/-- An active GLOBAL ACCESS policy restricted to role "doctor", priority 10. -/
def doctorOnlyPolicy : DataPolicy :=
  ⟨10, "DocOnly", PolicyType.ACCESS, PolicyScope.GLOBAL, none, none, none,
    ⟨some ⟨["doctor"], none, []⟩, none, none⟩, true, 10, none⟩

/-- Database with `fullConsent` and the role-restricted policy. -/
def doctorOnlyDB : DB := ⟨[fullConsent], [doctorOnlyPolicy], []⟩

/-- An active GLOBAL ACCESS policy whose `expires_at` (epoch 100) is in the
past at `tueInstant` (epoch 200); its rule payload would permit anything. -/
def expiredPolicy : DataPolicy :=
  ⟨1, "P", PolicyType.ACCESS, PolicyScope.GLOBAL, none, none, none,
    emptyRules, true, 0, some 100⟩

/-- Database with `fullConsent` and the expired-but-active policy. -/
def expiredPolicyDB : DB := ⟨[fullConsent], [expiredPolicy], []⟩

/-- An inactive GLOBAL ACCESS policy. -/
def inactivePolicy : DataPolicy :=
  ⟨1, "Q", PolicyType.ACCESS, PolicyScope.GLOBAL, none, none, none,
    emptyRules, false, 0, none⟩

/-- Database with `fullConsent` and the inactive policy. -/
def inactivePolicyDB : DB := ⟨[fullConsent], [inactivePolicy], []⟩

/-- An ACCESS policy whose JSON `rules` payload is malformed: it has no
`"access_rules"` key at all. -/
def malformedPolicy : DataPolicy :=
  ⟨1, "Broken", PolicyType.ACCESS, PolicyScope.GLOBAL, none, none, none,
    emptyRules, true, 0, none⟩

/-- The Mon–Fri 09:00–17:00 time-restriction dict. -/
def monFriRestrictions : TimeRestrictions :=
  ⟨some [0, 1, 2, 3, 4], some "09:00", some "17:00"⟩

/-- An active GLOBAL ACCESS policy restricted to Mon–Fri 09:00–17:00 with
no role or category clauses. -/
def monFriPolicy : DataPolicy :=
  ⟨3, "TimeWindow", PolicyType.ACCESS, PolicyScope.GLOBAL, none, none, none,
    ⟨some ⟨[], some monFriRestrictions, []⟩, none, none⟩, true, 0, none⟩

/-- A GLOBAL role-restricted ACCESS policy with the *lower* priority 5
(id 11). -/
def lowPriorityDenyPolicy : DataPolicy :=
  ⟨11, "Low", PolicyType.ACCESS, PolicyScope.GLOBAL, none, none, none,
    ⟨some ⟨["doctor"], none, []⟩, none, none⟩, true, 5, none⟩

/-- Database holding `fullConsent` and the two denying policies with the
lower-priority one stored first. -/
def denyPairDB : DB := ⟨[fullConsent], [lowPriorityDenyPolicy, doctorOnlyPolicy], []⟩

/-- A GLOBAL policy with id 2 and priority 5. -/
def globalTiePolicy : DataPolicy :=
  ⟨2, "G", PolicyType.ACCESS, PolicyScope.GLOBAL, none, none, none,
    emptyRules, true, 5, none⟩

/-- A PATIENT-scoped policy (patient 42) with the *smaller* id 1 and the
same priority 5. -/
def patientTiePolicy : DataPolicy :=
  ⟨1, "T", PolicyType.ACCESS, PolicyScope.PATIENT, none, some 42, none,
    emptyRules, true, 5, none⟩

/-- Database holding the two equal-priority policies. -/
def tieDB : DB := ⟨[], [globalTiePolicy, patientTiePolicy], []⟩

/-- The spec §8 notion of an *active* consent of a (patient, clinic) pair
at instant `t`: access level ≠ NONE and `valid_until` null or in the
future. -/
def activePair (t patient_id clinic_id : Int) (c : DataConsent) : Bool :=
  c.patient_id == patient_id && c.clinic_id == clinic_id &&
  !(c.access_level == AccessLevel.NONE) && consentUnexpired t c

/-! ### Helper lemmas -/

/-- The policy `for` loop returns the denial message of the first policy
(in list order) whose `evaluate_access` is false. -/
theorem policyLoop_eq_find (now : Instant) (user_id : Int)
    (data_category : DataCategory) (action : String) (context : Context)
    (ps : List DataPolicy) :
    policyLoop now user_id data_category action context ps =
      (ps.find? (fun q =>
          !evaluateAccess q now user_id data_category action context)).map
        (fun p => "Policy " ++ p.name ++ " denies access") := by
  induction ps with
  | nil => rfl
  | cons p ps ih =>
      by_cases h : evaluateAccess p now user_id data_category action context
      · simp [policyLoop, h, List.find?, ih]
      · simp [policyLoop, h, List.find?]

/-- **C2**: `check_access_permission` evaluates its steps in the fixed
order: no active consent ⇒ "No active consent found"; else access level
`NONE` ⇒ "Access explicitly denied"; else category absent from the
consent's category mapping ⇒ "No consent for < category > data"; else the
first applicable policy (in `_get_applicable_policies` order) whose
`evaluate_access` is false decides with "Policy < name > denies access";
and when no policy denies — including the empty sequence — the result is
`(true, "Access granted")`. -/
theorem C2_check_access_step_order (db : DB) (now : Instant)
    (user_id patient_id : Int) (cat : DataCategory) (action : String)
    (clinic_id : Option Int) (ctx : Context) :
    (getActiveConsent db now.epoch patient_id clinic_id = none →
      checkAccessPermission db now user_id patient_id cat action clinic_id ctx
        = (db, false, "No active consent found")) ∧
    (∀ c, getActiveConsent db now.epoch patient_id clinic_id = some c →
      (c.access_level = AccessLevel.NONE →
        checkAccessPermission db now user_id patient_id cat action clinic_id ctx
          = (db, false, "Access explicitly denied")) ∧
      (c.access_level ≠ AccessLevel.NONE →
        cat.value ∉ c.data_categories.map Prod.fst →
        checkAccessPermission db now user_id patient_id cat action clinic_id ctx
          = (db, false, "No consent for " ++ cat.value ++ " data")) ∧
      (c.access_level ≠ AccessLevel.NONE →
        cat.value ∈ c.data_categories.map Prod.fst →
        (∀ p,
          (getApplicablePolicies db patient_id clinic_id cat).find?
              (fun q => !evaluateAccess q now user_id cat action ctx)
            = some p →
          checkAccessPermission db now user_id patient_id cat action clinic_id ctx
            = (db, false, "Policy " ++ p.name ++ " denies access")) ∧
        ((getApplicablePolicies db patient_id clinic_id cat).find?
              (fun q => !evaluateAccess q now user_id cat action ctx)
            = none →
          (checkAccessPermission db now user_id patient_id cat action clinic_id ctx).2
            = (true, "Access granted")))) := by
  constructor
  · intro h
    unfold checkAccessPermission
    rw [h]
  · intro c hc
    refine ⟨?_, ?_, ?_⟩
    · intro hnone
      unfold checkAccessPermission
      rw [hc]
      simp [hnone]
    · intro hlvl hcat
      unfold checkAccessPermission
      rw [hc]
      have hb : (c.access_level == AccessLevel.NONE) = false := by
        simpa using hlvl
      have hcontains :
          (c.data_categories.map Prod.fst).contains cat.value = false := by
        simpa [List.elem_iff] using hcat
      simp [hb, hcontains]
      intro x hx
      exact absurd (List.mem_map_of_mem Prod.fst hx) hcat
    · intro hlvl hcat
      have hb : (c.access_level == AccessLevel.NONE) = false := by
        simpa using hlvl
      have hcontains :
          (c.data_categories.map Prod.fst).contains cat.value = true := by
        simpa [List.elem_iff] using hcat
      constructor
      · intro p hp
        unfold checkAccessPermission
        rw [hc]
        simp only [hb, hcontains, Bool.false_eq_true, if_false, if_true,
          Bool.not_true, cond_false, cond_true]
        simp [policyLoop_eq_find, hp]
      · intro hnone
        unfold checkAccessPermission
        rw [hc]
        simp only [hb, hcontains, Bool.false_eq_true, if_false, if_true,
          Bool.not_true, cond_false, cond_true]
        simp [policyLoop_eq_find, hnone, logAccessAttempt, logAction]

/-- Witness for C2: concrete instantiations of the no-consent branch and
of the empty-policy grant branch. -/
theorem C2_check_access_step_order_witness :
    checkAccessPermission emptyDB tueInstant 99 42 DataCategory.MEDICAL_HISTORY
        "view" (some 7) sampleCtx
      = (emptyDB, false, "No active consent found") ∧
    (checkAccessPermission consentOnlyDB tueInstant 99 42
        DataCategory.MEDICAL_HISTORY "view" (some 7) sampleCtx).2
      = (true, "Access granted") := by
  constructor
  · exact (C2_check_access_step_order emptyDB tueInstant 99 42
      DataCategory.MEDICAL_HISTORY "view" (some 7) sampleCtx).1 (by decide)
  · exact (((C2_check_access_step_order consentOnlyDB tueInstant 99 42
      DataCategory.MEDICAL_HISTORY "view" (some 7) sampleCtx).2 fullConsent
      (by decide)).2.2 (by decide) (by decide)).2 (by decide)

/-- **C1** [code behavior at the failing inputs]: `check_access_permission`
appends an `AuditLog` row only on the granted path.  All four denial
branches — no active consent, access level `NONE`, category not consented,
policy denial — return with the audit table untouched, so it is false that
every invocation appends exactly one entry.  Concretely: with no consent
row the call denies and appends nothing; with a `NONE`-level consent it
denies and appends nothing; with a role-restricted policy it denies and
appends nothing; only the granted call appends (exactly one) row. -/
theorem C1_audit_only_on_granted_path :
    (checkAccessPermission emptyDB tueInstant 99 42
        DataCategory.MEDICAL_HISTORY "view" (some 7) sampleCtx).2
      = (false, "No active consent found") ∧
    (checkAccessPermission emptyDB tueInstant 99 42
        DataCategory.MEDICAL_HISTORY "view" (some 7) sampleCtx).1.audit_logs
      = [] ∧
    (checkAccessPermission noneLevelDB tueInstant 99 42
        DataCategory.MEDICAL_HISTORY "view" (some 7) sampleCtx).1.audit_logs
      = [] ∧
    (checkAccessPermission doctorOnlyDB tueInstant 99 42
        DataCategory.MEDICAL_HISTORY "view" (some 7) sampleCtx).2
      = (false, "Policy DocOnly denies access") ∧
    (checkAccessPermission doctorOnlyDB tueInstant 99 42
        DataCategory.MEDICAL_HISTORY "view" (some 7) sampleCtx).1.audit_logs
      = [] ∧
    (checkAccessPermission consentOnlyDB tueInstant 99 42
        DataCategory.MEDICAL_HISTORY "view" (some 7) sampleCtx).1.audit_logs.length
      = 1 := by
  decide

/-- Counterexample to **C3**: `malformedPolicy` is an active, unexpired
ACCESS policy whose rule payload is malformed (no `"access_rules"` key),
yet `evaluate_access` permits — there is no fail-closed deny for the
malformed case. -/
theorem C3_counterexample :
    evaluateAccess malformedPolicy tueInstant 99 DataCategory.MEDICAL_HISTORY
      "view" sampleCtx = true := by
  decide

/-- **C3 (amended)**: `evaluate_access` is fail-open, not fail-closed: the
policy types outside the three dispatched ones (ENCRYPTION, ANONYMIZATION)
fall into the `return True` default branch, and a rule payload missing the
sub-dict for the dispatched type evaluates each clause at its default and
permits.  No input raises an error or denies for being malformed. -/
theorem C3_default_allow (p : DataPolicy) (now : Instant) (user_id : Int)
    (cat : DataCategory) (action : String) (ctx : Context)
    (hactive : p.is_active = true)
    (hexpires : ∀ e, p.expires_at = some e → now.epoch ≤ e) :
    ((p.policy_type = PolicyType.ENCRYPTION ∨
      p.policy_type = PolicyType.ANONYMIZATION) →
      evaluateAccess p now user_id cat action ctx = true) ∧
    (p.policy_type = PolicyType.ACCESS → p.rules.access_rules = none →
      evaluateAccess p now user_id cat action ctx = true) ∧
    (p.policy_type = PolicyType.SHARING → p.rules.sharing_rules = none →
      evaluateAccess p now user_id cat action ctx = true) ∧
    (p.policy_type = PolicyType.RETENTION → p.rules.retention_rules = none →
      evaluateAccess p now user_id cat action ctx = true) := by
  have hguard :
      (!p.is_active ||
        (match p.expires_at with
         | some e => decide (now.epoch > e)
         | none => false)) = false := by
    cases he : p.expires_at with
    | none => simp [hactive]
    | some e =>
        have := hexpires e he
        simp [hactive, this]
  refine ⟨?_, ?_, ?_, ?_⟩
  · rintro (h | h) <;>
      simp [evaluateAccess, hguard, h]
  · intro h hr
    simp [evaluateAccess, hguard, h, evaluateAccessPolicy, hr,
      Inhabited.default]
  · intro h hr
    simp [evaluateAccess, hguard, h, evaluateSharingPolicy, hr,
      Inhabited.default]
  · intro h hr
    simp [evaluateAccess, hguard, h, evaluateRetentionPolicy, hr,
      Inhabited.default]

/-- Witness for C3 (amended): an ENCRYPTION policy and a payload-less
ACCESS policy both permit. -/
theorem C3_default_allow_witness :
    evaluateAccess
      ⟨5, "Enc", PolicyType.ENCRYPTION, PolicyScope.GLOBAL, none, none, none,
        ⟨none, none, none⟩, true, 0, none⟩
      tueInstant 99 DataCategory.MEDICAL_HISTORY "view" sampleCtx = true ∧
    evaluateAccess malformedPolicy tueInstant 99 DataCategory.MEDICAL_HISTORY
      "view" sampleCtx = true := by
  constructor
  · exact (C3_default_allow _ tueInstant 99 DataCategory.MEDICAL_HISTORY
      "view" sampleCtx rfl (by intro e he; cases he)).1 (Or.inl rfl)
  · exact (C3_default_allow malformedPolicy tueInstant 99
      DataCategory.MEDICAL_HISTORY "view" sampleCtx rfl
      (by intro e he; cases he)).2.1 rfl rfl

/-- **C4** [code behavior at the failing input]: an ACCESS policy that is
active but past its `expires_at` is *not* filtered out of the
applicable-policy sequence (`_get_applicable_policies` filters only on
`is_active`), and `evaluate_access` returns `False` for it, so the expired
policy turns a would-be grant into a denial attributed to it — the same
call without that policy grants.  Inactive policies, by contrast, are
filtered out as the claim states. -/
theorem C4_expired_policy_denies :
    (getApplicablePolicies expiredPolicyDB 42 (some 7)
        DataCategory.MEDICAL_HISTORY).map (fun p => p.name) = ["P"] ∧
    evaluateAccess expiredPolicy tueInstant 99 DataCategory.MEDICAL_HISTORY
      "view" sampleCtx = false ∧
    (checkAccessPermission expiredPolicyDB tueInstant 99 42
        DataCategory.MEDICAL_HISTORY "view" (some 7) sampleCtx).2
      = (false, "Policy P denies access") ∧
    (checkAccessPermission consentOnlyDB tueInstant 99 42
        DataCategory.MEDICAL_HISTORY "view" (some 7) sampleCtx).2
      = (true, "Access granted") ∧
    getApplicablePolicies inactivePolicyDB 42 (some 7)
      DataCategory.MEDICAL_HISTORY = [] := by
  decide

/-- Counterexample to **C6**: revoking an already-revoked consent does
*not* leave `valid_until` unchanged.  After a first revocation at time 10
the consent's `valid_until` is `some 10`; a second revocation at time 20
resets it to `some 20`. -/
theorem C6_counterexample :
    ((revokeConsent consentOnlyDB 10 1 9 none).1.consents.map
        (fun c => c.valid_until)) = [some 10] ∧
    (revokeConsent (revokeConsent consentOnlyDB 10 1 9 none).1 20 1 9
        none).2 = true ∧
    ((revokeConsent (revokeConsent consentOnlyDB 10 1 9 none).1 20 1 9
        none).1.consents.map (fun c => c.valid_until)) = [some 20] := by
  decide

/-- **C6 (amended)**: revoking any existing consent — including an
already-revoked one — returns `true` and records exactly one audit entry,
but it sets the consent's `valid_until` to the current time on every call
rather than leaving it unchanged after the first revocation. -/
theorem C6_revoke_always_resets (db : DB) (now : Int)
    (consent_id revoked_by : Int) (reason : Option String) (c : DataConsent)
    (h : db.consents.find? (fun x => x.id == consent_id) = some c) :
    (revokeConsent db now consent_id revoked_by reason).2 = true ∧
    ((revokeConsent db now consent_id revoked_by reason).1.audit_logs).length
      = db.audit_logs.length + 1 ∧
    (∀ x ∈ (revokeConsent db now consent_id revoked_by reason).1.consents,
      x.id = consent_id → x.valid_until = some now) := by
  unfold revokeConsent
  rw [h]
  refine ⟨rfl, ?_, ?_⟩
  · simp [logConsentChange, logAction]
  · intro x hx hid
    simp only [logConsentChange, logAction] at hx
    rcases List.mem_map.mp hx with ⟨y, hy, rfl⟩
    by_cases hyid : (y.id == consent_id) = true
    · simp [hyid]
    · exfalso
      rw [if_neg (by simp [hyid])] at hid
      exact hyid (by simp [hid])

/-- Witness for C6 (amended): the second revocation of the sample consent
succeeds, logs, and resets `valid_until` to 20. -/
theorem C6_revoke_always_resets_witness :
    (revokeConsent (revokeConsent consentOnlyDB 10 1 9 none).1 20 1 9
        none).2 = true ∧
    ((revokeConsent (revokeConsent consentOnlyDB 10 1 9 none).1 20 1 9
        none).1.audit_logs).length
      = ((revokeConsent consentOnlyDB 10 1 9 none).1.audit_logs).length
        + 1 := by
  have h := C6_revoke_always_resets (revokeConsent consentOnlyDB 10 1 9
    none).1 20 1 9 none
    ⟨1, 42, 7, AccessLevel.NONE, 0, some 10, [], [("medical_history", "all")],
      42, 9⟩ (by decide)
  exact ⟨h.1, h.2.1⟩

/-- Counterexample to **C8**: `grant_consent` does not reject a
`valid_until` in the past (epoch 100 at grant time 200) or an empty
category set with access level ≠ NONE — both calls insert a consent row
(the state is mutated) and return the new consent. -/
theorem C8_counterexample :
    ((grantConsent emptyDB 200 42 7 AccessLevel.FULL
        [DataCategory.MEDICAL_HISTORY] [] (some 100) none).1.consents.length
      = 1) ∧
    ((grantConsent emptyDB 200 42 7 AccessLevel.FULL
        [DataCategory.MEDICAL_HISTORY] [] (some 100) none).2.valid_until
      = some 100) ∧
    ((grantConsent emptyDB 200 42 7 AccessLevel.FULL [] [] none
        none).1.consents.length = 1) ∧
    ((grantConsent emptyDB 200 42 7 AccessLevel.FULL [] [] none
        none).2.data_categories = []) := by
  decide

/-- **C8 (amended)**: `grant_consent` performs no precondition validation:
for every input — in particular a `valid_until` already in the past, or an
empty category set with access level ≠ NONE — it supersedes and inserts
unconditionally: the consent table always grows by one row and the
returned consent carries the arguments verbatim. -/
theorem C8_grant_no_validation (db : DB) (now : Int)
    (patient_id clinic_id : Int) (access_level : AccessLevel)
    (data_categories : List DataCategory) (purposes : List String)
    (valid_until : Option Int) (granted_by : Option Int) :
    ((grantConsent db now patient_id clinic_id access_level data_categories
        purposes valid_until granted_by).1.consents).length
      = db.consents.length + 1 ∧
    (grantConsent db now patient_id clinic_id access_level data_categories
        purposes valid_until granted_by).2.valid_until = valid_until ∧
    (grantConsent db now patient_id clinic_id access_level data_categories
        purposes valid_until granted_by).2.access_level = access_level ∧
    (grantConsent db now patient_id clinic_id access_level data_categories
        purposes valid_until granted_by).2.data_categories
      = data_categories.map (fun cat => (cat.value, "all")) := by
  refine ⟨?_, rfl, rfl, rfl⟩
  simp [grantConsent, logConsentChange, logAction, revokeExistingConsents]

/-- Lexicographic clock-window membership: `isWithinTimeRestrictions`
holds exactly when the weekday is allowed and the zero-padded "HH:MM"
rendering of the time lies in the inclusive `[start_time, end_time]`
string range. -/
theorem isWithinTimeRestrictions_iff (t : Instant) (tr : TimeRestrictions) :
    isWithinTimeRestrictions t tr = true ↔
      (t.weekday ∈ tr.days.getD [0, 1, 2, 3, 4, 5, 6] ∧
       pyStrLe (tr.start_time.getD "00:00") t.hhmm = true ∧
       pyStrLe t.hhmm (tr.end_time.getD "23:59") = true) := by
  unfold isWithinTimeRestrictions
  by_cases h : ((tr.days.getD [0, 1, 2, 3, 4, 5, 6]).contains t.weekday) = true
  · simp [h, List.elem_iff.mp h, Bool.and_eq_true, and_assoc]
  · have hnm : t.weekday ∉ tr.days.getD [0, 1, 2, 3, 4, 5, 6] := by
      intro hm
      exact h (List.elem_iff.mpr hm)
    simp [h, hnm]

/-- **C9**: an active, unexpired ACCESS policy with configured time
restrictions, an empty role clause and no category rules permits exactly
when the weekday is in the allowed-day set and the zero-padded "HH:MM"
clock string lies within `[start_time, end_time]` inclusive,
lexicographically; in particular the Mon–Fri 09:00–17:00 policy denies at
Saturday 10:00 and permits at Tuesday 10:00. -/
theorem C9_time_window (p : DataPolicy) (now : Instant) (user_id : Int)
    (cat : DataCategory) (action : String) (ctx : Context)
    (ar : AccessRules) (tr : TimeRestrictions)
    (hactive : p.is_active = true)
    (hexpires : p.expires_at = none)
    (htype : p.policy_type = PolicyType.ACCESS)
    (har : p.rules.access_rules = some ar)
    (hroles : ar.allowed_roles = [])
    (htr : ar.time_restrictions = some tr)
    (hcat : ar.category_rules = []) :
    (evaluateAccess p now user_id cat action ctx = true ↔
      (now.weekday ∈ tr.days.getD [0, 1, 2, 3, 4, 5, 6] ∧
       pyStrLe (tr.start_time.getD "00:00") now.hhmm = true ∧
       pyStrLe now.hhmm (tr.end_time.getD "23:59") = true)) ∧
    evaluateAccess monFriPolicy satInstant 99 DataCategory.MEDICAL_HISTORY
      "view" sampleCtx = false ∧
    evaluateAccess monFriPolicy tueInstant 99 DataCategory.MEDICAL_HISTORY
      "view" sampleCtx = true := by
  refine ⟨?_, by decide, by decide⟩
  have h1 : evaluateAccess p now user_id cat action ctx
      = isWithinTimeRestrictions now tr := by
    unfold evaluateAccess evaluateAccessPolicy
    simp [hactive, hexpires, htype, har, hroles, htr, hcat]
  rw [h1, isWithinTimeRestrictions_iff]

/-- Witness for C9 at the Mon–Fri policy and Tuesday 10:00. -/
theorem C9_time_window_witness :
    evaluateAccess monFriPolicy tueInstant 99 DataCategory.MEDICAL_HISTORY
      "view" sampleCtx = true :=
  ((C9_time_window monFriPolicy tueInstant 99 DataCategory.MEDICAL_HISTORY
      "view" sampleCtx ⟨[], some monFriRestrictions, []⟩ monFriRestrictions
      rfl rfl rfl rfl rfl rfl rfl).1).mpr (by decide)

/-- **C10**: when `clinic_id` is `None` or `0`, the active-consent lookup
applies no clinic filter (`if clinic_id:` is false for both), so `0`
behaves identically to omitting the clinic: the lookup results coincide,
any unexpired consent of the patient — to whichever clinic — makes the
lookup succeed, and the access decision of `check_access_permission` is
the same for `clinic_id = 0` and `clinic_id = None`. -/
theorem C10_clinic_falsy (db : DB) (now : Int) (patient_id : Int) :
    getActiveConsent db now patient_id (some 0)
      = getActiveConsent db now patient_id none ∧
    (∀ c ∈ db.consents, c.patient_id = patient_id →
      consentUnexpired now c = true →
      (getActiveConsent db now patient_id none).isSome = true) ∧
    (∀ (now' : Instant) (user_id : Int) (cat : DataCategory)
        (action : String) (ctx : Context),
      (checkAccessPermission db now' user_id patient_id cat action (some 0)
          ctx).2
        = (checkAccessPermission db now' user_id patient_id cat action none
          ctx).2) := by
  refine ⟨rfl, ?_, ?_⟩
  · intro c hc hp hu
    have hmem : c ∈ db.consents.filter
        (fun x => x.patient_id == patient_id && consentUnexpired now x) := by
      rw [List.mem_filter]
      exact ⟨hc, by simp [hp, hu]⟩
    have hne : db.consents.filter
        (fun x => x.patient_id == patient_id && consentUnexpired now x)
        ≠ [] := List.ne_nil_of_mem hmem
    unfold getActiveConsent
    exact List.head?_isSome.mpr hne
  · intro now' user_id cat action ctx
    have h1 : getActiveConsent db now'.epoch patient_id (some 0)
        = getActiveConsent db now'.epoch patient_id none := rfl
    have h2 : getApplicablePolicies db patient_id (some 0) cat
        = getApplicablePolicies db patient_id none cat := rfl
    unfold checkAccessPermission
    rw [h1, h2]
    cases getActiveConsent db now'.epoch patient_id none with
    | none => rfl
    | some c =>
        dsimp only
        split
        · rfl
        · split
          · rfl
          · cases policyLoop now' user_id cat action ctx
                (getApplicablePolicies db patient_id none cat) with
            | some r => rfl
            | none => rfl

/-- Witness for C10: with the sample consent table, the organization-less
lookup succeeds and equals the `clinic_id = 0` lookup. -/
theorem C10_clinic_falsy_witness :
    (getActiveConsent consentOnlyDB 200 42 none).isSome = true :=
  (C10_clinic_falsy consentOnlyDB 200 42).2.1 fullConsent (by decide)
    (by decide) (by decide)

/-- Membership through `insertByPriority`. -/
theorem mem_insertByPriority (p b : DataPolicy) (l : List DataPolicy) :
    b ∈ insertByPriority p l ↔ b = p ∨ b ∈ l := by
  induction l with
  | nil => simp [insertByPriority]
  | cons q qs ih =>
      unfold insertByPriority
      by_cases hpq : p.priority ≥ q.priority
      · simp [hpq]
      · simp [hpq, ih]
        tauto

/-- `insertByPriority` preserves the descending-priority ordering. -/
theorem insertByPriority_pairwise (p : DataPolicy) (l : List DataPolicy)
    (h : l.Pairwise (fun a b => b.priority ≤ a.priority)) :
    (insertByPriority p l).Pairwise (fun a b => b.priority ≤ a.priority) := by
  induction l with
  | nil => simp [insertByPriority]
  | cons q qs ih =>
      unfold insertByPriority
      rcases List.pairwise_cons.mp h with ⟨hq, hqs⟩
      by_cases hpq : p.priority ≥ q.priority
      · rw [if_pos hpq]
        refine List.pairwise_cons.mpr ⟨?_, h⟩
        intro b hb
        rcases List.mem_cons.mp hb with rfl | hb
        · exact hpq
        · exact le_trans (hq b hb) hpq
      · rw [if_neg hpq]
        refine List.pairwise_cons.mpr ⟨?_, ih hqs⟩
        intro b hb
        rcases (mem_insertByPriority p b qs).mp hb with rfl | hb
        · omega
        · exact hq b hb

/-- The stable insertion sort orders by priority, descending. -/
theorem sortByPriorityDesc_pairwise (l : List DataPolicy) :
    (sortByPriorityDesc l).Pairwise (fun a b => b.priority ≤ a.priority) := by
  induction l with
  | nil => exact List.Pairwise.nil
  | cons p ps ih => exact insertByPriority_pairwise p _ ih

/-- Counterexample to **C7**: two applicable active policies share
priority 5; the policy with the *larger* id (2, GLOBAL scope) precedes the
one with the smaller id (1, PATIENT scope) in the applicable sequence,
because equal-priority entries keep the concatenation order of the scope
groups — ties are *not* broken by ascending identifier. -/
theorem C7_counterexample :
    ((getApplicablePolicies tieDB 42 none DataCategory.MEDICAL_HISTORY).map
        (fun p => p.id)) = [2, 1] ∧
    ((getApplicablePolicies tieDB 42 none DataCategory.MEDICAL_HISTORY).map
        (fun p => p.priority)) = [5, 5] := by
  decide

/-- **C7 (amended)**: the applicable-policy sequence is ordered by
priority descending, equal-priority entries keeping the retrieval order of
the scope-group queries (global, patient, clinic, category — not ascending
identifier); consequently, with two applicable denying policies of
priorities 10 and 5 — stored in either order — the denial reason reported
by `check_access_permission` is always the priority-10 policy's. -/
theorem C7_priority_determinism (db : DB) (now : Instant)
    (user_id patient_id : Int) (cat : DataCategory) (action : String)
    (clinic_id : Option Int) (ctx : Context) (p10 p5 : DataPolicy)
    (c : DataConsent)
    (h10s : p10.scope = PolicyScope.GLOBAL) (h10a : p10.is_active = true)
    (h10p : p10.priority = 10)
    (h10d : evaluateAccess p10 now user_id cat action ctx = false)
    (h5s : p5.scope = PolicyScope.GLOBAL) (h5a : p5.is_active = true)
    (h5p : p5.priority = 5)
    (_h5d : evaluateAccess p5 now user_id cat action ctx = false)
    (hpol : db.policies = [p10, p5] ∨ db.policies = [p5, p10])
    (hcons : getActiveConsent db now.epoch patient_id clinic_id = some c)
    (hlvl : c.access_level ≠ AccessLevel.NONE)
    (hcat : cat.value ∈ c.data_categories.map Prod.fst) :
    (∀ (db' : DB) (pid' : Int) (cid' : Option Int) (cat' : DataCategory),
      (getApplicablePolicies db' pid' cid' cat').Pairwise
        (fun a b => b.priority ≤ a.priority)) ∧
    getApplicablePolicies db patient_id clinic_id cat = [p10, p5] ∧
    checkAccessPermission db now user_id patient_id cat action clinic_id ctx
      = (db, false, "Policy " ++ p10.name ++ " denies access") := by
  have e1 : (PolicyScope.GLOBAL == PolicyScope.PATIENT) = false := rfl
  have e2 : (PolicyScope.GLOBAL == PolicyScope.CLINIC) = false := rfl
  have e3 : (PolicyScope.GLOBAL == PolicyScope.DATA_CATEGORY) = false := rfl
  have e4 : (PolicyScope.GLOBAL == PolicyScope.GLOBAL) = true := rfl
  have hsort1 : sortByPriorityDesc [p10, p5] = [p10, p5] := by
    simp [sortByPriorityDesc, insertByPriority, h10p, h5p]
  have hsort2 : sortByPriorityDesc [p5, p10] = [p10, p5] := by
    simp [sortByPriorityDesc, insertByPriority, h10p, h5p]
  have happ : getApplicablePolicies db patient_id clinic_id cat
      = [p10, p5] := by
    rcases hpol with h | h <;> rcases clinic_id with _ | k
    · simp [getApplicablePolicies, h, h10s, h10a, h5s, h5a, e1, e2, e3, e4,
        hsort1]
    · by_cases hk : (k == 0) = true <;>
        simp [getApplicablePolicies, h, h10s, h10a, h5s, h5a, e1, e2, e3,
          e4, hsort1, hk]
    · simp [getApplicablePolicies, h, h10s, h10a, h5s, h5a, e1, e2, e3, e4,
        hsort2]
    · by_cases hk : (k == 0) = true <;>
        simp [getApplicablePolicies, h, h10s, h10a, h5s, h5a, e1, e2, e3,
          e4, hsort2, hk]
  refine ⟨?_, happ, ?_⟩
  · intro db' pid' cid' cat'
    unfold getApplicablePolicies
    exact sortByPriorityDesc_pairwise _
  · have hb : (c.access_level == AccessLevel.NONE) = false :=
      beq_eq_false_iff_ne.mpr hlvl
    have hcontains :
        (c.data_categories.map Prod.fst).contains cat.value = true :=
      List.elem_iff.mpr hcat
    unfold checkAccessPermission
    rw [hcons]
    simp [hb, hcontains, happ, policyLoop, h10d]
    intro hnone
    rcases List.mem_map.mp hcat with ⟨⟨a, b⟩, hmem, hfst⟩
    cases hfst
    exact absurd hmem (hnone b)

/-- Witness for C7 (amended): the two sample denying policies, stored
lower-priority first; the reported reason is the priority-10 policy's. -/
theorem C7_priority_determinism_witness :
    checkAccessPermission denyPairDB tueInstant 99 42
        DataCategory.MEDICAL_HISTORY "view" (some 7) sampleCtx
      = (denyPairDB, false, "Policy DocOnly denies access") :=
  (C7_priority_determinism denyPairDB tueInstant 99 42
      DataCategory.MEDICAL_HISTORY "view" (some 7) sampleCtx
      doctorOnlyPolicy lowPriorityDenyPolicy fullConsent
      rfl rfl rfl (by decide) rfl rfl rfl (by decide) (Or.inr rfl)
      (by decide) (by decide) (by decide)).2.2

/-- `countP` only depends on the predicate's values on the list. -/
theorem countP_congr_mem {α : Type} (p q : α → Bool) (l : List α)
    (h : ∀ a ∈ l, p a = q a) : l.countP p = l.countP q := by
  induction l with
  | nil => rfl
  | cons a l ih =>
      rw [List.countP_cons, List.countP_cons, h a (by simp),
        ih (fun b hb => h b (by simp [hb]))]

/-- Unfolding of the spec §8 active-consent predicate. -/
theorem activePair_iff (t patient_id clinic_id : Int) (c : DataConsent) :
    activePair t patient_id clinic_id c = true ↔
      (c.patient_id = patient_id ∧ c.clinic_id = clinic_id ∧
        c.access_level ≠ AccessLevel.NONE ∧
        (c.valid_until = none ∨ ∃ u, c.valid_until = some u ∧ t < u)) := by
  unfold activePair consentUnexpired
  cases hu : c.valid_until with
  | none => simp [hu, and_assoc]
  | some u => simp [hu, and_assoc]

/-- After superseding, no consent row of the superseded pair is active at
any instant `t ≥ now`. -/
theorem activePair_supersede_same (now t patient_id clinic_id : Int)
    (hnt : now ≤ t) (c : DataConsent) :
    activePair t patient_id clinic_id
      (supersedeIfActive now patient_id clinic_id c) = false := by
  unfold supersedeIfActive
  split
  case isTrue h =>
    rw [Bool.eq_false_iff]
    intro htrue
    rw [activePair_iff] at htrue
    obtain ⟨-, -, -, hv⟩ := htrue
    rcases hv with hnone | ⟨u, hu, htu⟩
    · exact Option.noConfusion hnone
    · have hun : (some now : Option Int) = some u := hu
      have := Option.some.inj hun
      omega
  case isFalse h =>
    rw [Bool.eq_false_iff]
    intro htrue
    rw [activePair_iff] at htrue
    obtain ⟨hp, hk, -, hv⟩ := htrue
    apply h
    have hcu : consentUnexpired now c = true := by
      rcases hv with hnone | ⟨u, hu, htu⟩
      · simp [consentUnexpired, hnone]
      · simp [consentUnexpired, hu]
        omega
    simp [hp, hk, hcu]

/-- Superseding a pair leaves the active-consent predicate of every
*other* pair unchanged. -/
theorem activePair_supersede_other (now t patient_id clinic_id p k : Int)
    (hne : ¬(p = patient_id ∧ k = clinic_id)) (c : DataConsent) :
    activePair t p k (supersedeIfActive now patient_id clinic_id c)
      = activePair t p k c := by
  unfold supersedeIfActive
  split
  case isTrue h =>
    rw [Bool.and_eq_true, Bool.and_eq_true] at h
    have hp : c.patient_id = patient_id := beq_iff_eq.mp h.1.1
    have hk : c.clinic_id = clinic_id := beq_iff_eq.mp h.1.2
    have h1 : activePair t p k { c with valid_until := some now } = false := by
      rw [Bool.eq_false_iff]
      intro htrue
      rw [activePair_iff] at htrue
      obtain ⟨hp2, hk2, -, -⟩ := htrue
      have hp3 : c.patient_id = p := hp2
      have hk3 : c.clinic_id = k := hk2
      exact hne ⟨by omega, by omega⟩
    have h2 : activePair t p k c = false := by
      rw [Bool.eq_false_iff]
      intro htrue
      rw [activePair_iff] at htrue
      obtain ⟨hp2, hk2, -, -⟩ := htrue
      exact hne ⟨by omega, by omega⟩
    rw [h1, h2]
  case isFalse h => rfl

/-- **C5**: `grant_consent` first supersedes (sets `valid_until = now` on)
every currently-active consent of the (patient, clinic) pair, then appends
the new consent row and returns it; consequently, at any instant `t ≥ now`
at which the at-most-one-active invariant held before the call, it still
holds after every `grant_consent` and after every `revoke_consent`. -/
theorem C5_single_active_invariant (db : DB) (now t : Int)
    (patient_id clinic_id : Int) (access_level : AccessLevel)
    (data_categories : List DataCategory) (purposes : List String)
    (valid_until : Option Int) (granted_by : Option Int)
    (consent_id revoked_by : Int) (reason : Option String)
    (hnt : now ≤ t)
    (hinv : ∀ p k, db.consents.countP (activePair t p k) ≤ 1) :
    ((grantConsent db now patient_id clinic_id access_level data_categories
        purposes valid_until granted_by).1.consents
      = (db.consents.map (supersedeIfActive now patient_id clinic_id))
        ++ [(grantConsent db now patient_id clinic_id access_level
              data_categories purposes valid_until granted_by).2]) ∧
    (∀ p k, ((grantConsent db now patient_id clinic_id access_level
        data_categories purposes valid_until granted_by).1.consents).countP
        (activePair t p k) ≤ 1) ∧
    (∀ p k, ((revokeConsent db now consent_id revoked_by
        reason).1.consents).countP (activePair t p k) ≤ 1) := by
  refine ⟨rfl, ?_, ?_⟩
  · intro p k
    have hrw : ((grantConsent db now patient_id clinic_id access_level
        data_categories purposes valid_until granted_by).1.consents).countP
          (activePair t p k)
        = (db.consents.map
            (supersedeIfActive now patient_id clinic_id)).countP
            (activePair t p k)
          + ([(grantConsent db now patient_id clinic_id access_level
              data_categories purposes valid_until granted_by).2]).countP
            (activePair t p k) := List.countP_append _ _ _
    rw [hrw, List.countP_map]
    by_cases hpk : p = patient_id ∧ k = clinic_id
    · obtain ⟨rfl, rfl⟩ := hpk
      have hzero : db.consents.countP
          ((activePair t p k) ∘ (supersedeIfActive now p k)) = 0 := by
        apply List.countP_eq_zero.mpr
        intro a ha
        simp [Function.comp, activePair_supersede_same now t p k hnt a]
      have hone : ([(grantConsent db now p k access_level
          data_categories purposes valid_until granted_by).2]).countP
          (activePair t p k) ≤ 1 :=
        le_trans (List.countP_le_length _) (by simp)
      omega
    · have hcongr : db.consents.countP
          ((activePair t p k) ∘ (supersedeIfActive now patient_id clinic_id))
          = db.consents.countP (activePair t p k) :=
        countP_congr_mem _ _ _ (fun a _ =>
          activePair_supersede_other now t patient_id clinic_id p k hpk a)
      have hnewc : activePair t p k
          (grantConsent db now patient_id clinic_id access_level
            data_categories purposes valid_until granted_by).2 = false := by
        rw [Bool.eq_false_iff]
        intro htrue
        rw [activePair_iff] at htrue
        obtain ⟨hp2, hk2, -, -⟩ := htrue
        have hp3 : patient_id = p := hp2
        have hk3 : clinic_id = k := hk2
        exact hpk ⟨by omega, by omega⟩
      have hone : ([(grantConsent db now patient_id clinic_id access_level
          data_categories purposes valid_until granted_by).2]).countP
          (activePair t p k) = 0 := by
        simp [List.countP_cons, hnewc]
      have := hinv p k
      omega
  · intro p k
    unfold revokeConsent
    cases hf : db.consents.find? (fun x => x.id == consent_id) with
    | none => exact hinv p k
    | some c0 =>
        simp only [logConsentChange, logAction]
        rw [List.countP_map]
        refine le_trans (List.countP_mono_left ?_) (hinv p k)
        intro a ha hpa
        simp only [Function.comp] at hpa
        by_cases hid : (a.id == consent_id) = true
        · exfalso
          rw [if_pos hid] at hpa
          rw [activePair_iff] at hpa
          obtain ⟨-, -, hl, -⟩ := hpa
          exact hl rfl
        · rw [if_neg (by simp [hid])] at hpa
          exact hpa

/-- Witness for C5: granting over the sample single-consent table keeps at
most one active consent for the (42, 7) pair. -/
theorem C5_single_active_invariant_witness :
    ((grantConsent consentOnlyDB 200 42 7 AccessLevel.FULL
        [DataCategory.MEDICAL_HISTORY] [] none none).1.consents).countP
      (activePair 200 42 7) ≤ 1 :=
  ((C5_single_active_invariant consentOnlyDB 200 200 42 7 AccessLevel.FULL
      [DataCategory.MEDICAL_HISTORY] [] none none 1 9 none (le_refl 200)
      (fun p k => le_trans (List.countP_le_length _) (by decide))).2.1) 42 7

end HealthBridge
